import Mathlib

/-!
Verification development for the Lean Six Sigma RAG chatbot repository.

The repository is a SaaS chat application: a React/TypeScript frontend
(`frontend/src/services/{auth,chat,docs,profile}.ts`, pages, tests) over a
FastAPI backend providing RAG chat, per-user daily query quotas, and a
markdown knowledge-base browser.  The backend source is not part of the
snapshot (only the frontend, the README and the design document are), so
backend behaviour (quota tracker, retriever, answer composer, document
ingest, chat orchestrator, document-content endpoint) is modelled from the
specification, while the frontend service modules are embedded directly
from their TypeScript source.

All definitions are executable; timestamps are seconds as `Nat`.
-/

namespace L6S

/-! ## Quota tracker (backend)

Modelled from the spec: the backend Quota Tracker
(`checkAndConsume(userId) -> {allowed, remaining, limit}`) is not in the
source snapshot.  Per the spec: it loads or creates the user's QuotaRecord;
if the current time is outside the record's window it resets count to 0 and
sets window-start to now; if `count >= limit` it returns `allowed=false`
without incrementing; otherwise it increments count and returns
`allowed=true` with `remaining = limit - count`.  The window is taken as a
rolling 24h (86400 s) interval from window-start; the spec flags the exact
boundary semantics as ambiguous, and none of the properties proved below
depend on the choice. -/

/-- A per-user quota record: current window's query count and the
window-start timestamp. -/
structure QuotaRecord where
  count : Nat
  windowStart : Nat
  deriving Repr, DecidableEq

/-- Result reported by the quota tracker. -/
structure QuotaResult where
  allowed : Bool
  remaining : Nat
  limit : Nat
  deriving Repr, DecidableEq

/-- Length of the quota window in seconds (daily reset). -/
def windowLen : Nat := 86400

/-- Is the time `now` still inside the window that started at `ws`? -/
def insideWindow (ws now : Nat) : Bool := now < ws + windowLen

/-- Modelled from the spec: reset step of the Quota Tracker — if the
current time is outside the record's window, reset count to 0 and set
window-start to now; otherwise keep the record. -/
def resetIfExpired (now : Nat) (rec : QuotaRecord) : QuotaRecord :=
  if insideWindow rec.windowStart now then rec else ⟨0, now⟩

/-- Modelled from the spec: the Quota Tracker's
`checkAndConsume(userId) -> {allowed, remaining, limit}`.  After the window
reset, a record at or above the limit is rejected without incrementing
(surfaced with remaining 0); otherwise the count is incremented and
`remaining = limit - count` is reported. -/
def checkAndConsume (limit now : Nat) (rec : QuotaRecord) :
    QuotaResult × QuotaRecord :=
  let rec1 := resetIfExpired now rec
  if limit ≤ rec1.count then
    (⟨false, limit - rec1.count, limit⟩, rec1)
  else
    (⟨true, limit - (rec1.count + 1), limit⟩, ⟨rec1.count + 1, rec1.windowStart⟩)

/-- `n` consecutive quota consumptions at time `now`, starting from `rec`. -/
def consumeN (limit now : Nat) (rec : QuotaRecord) : Nat → QuotaRecord
  | 0 => rec
  | n + 1 => (checkAndConsume limit now (consumeN limit now rec n)).2

theorem insideWindow_self (now : Nat) : insideWindow now now = true := by
  simp [insideWindow, windowLen]

theorem consumeN_le (limit now N : Nat) (hN : N ≤ limit) :
    consumeN limit now ⟨0, now⟩ N = ⟨N, now⟩ := by
  induction N with
  | zero => rfl
  | succ n ih =>
      have hn : n ≤ limit := Nat.le_of_succ_le hN
      have hlt : n < limit := hN
      simp only [consumeN, ih hn, checkAndConsume, resetIfExpired,
        insideWindow_self, if_true, Nat.not_le.mpr hlt, if_false,
        if_neg (Nat.not_le.mpr hlt)]

/-! ## Frontend chat service and page (from source)

Embedded from `frontend/src/services/chat.ts`, `frontend/src/utils/test-utils.ts`
(`validateChatResponse`) and `frontend/src/pages/Chat.tsx` (`handleSubmit`). -/

/-- Top-level JSON keys of the `ChatResponse` interface in
`frontend/src/services/chat.ts`: `response` and `remaining_queries`. -/
def chatResponseKeys : List String := ["response", "remaining_queries"]

/-- Keys of the nested `remaining_queries` object of `ChatResponse`. -/
def remainingQueriesKeys : List String :=
  ["daily_queries_remaining", "daily_queries_limit", "last_query_time"]

/-- Required fields checked by `validateChatResponse` in
`frontend/src/utils/test-utils.ts`. -/
def chatRequiredFields : List String := ["response", "remaining_queries"]

/-- From `frontend/src/utils/test-utils.ts`: `validateChatResponse` holds
when every required field is present among the response object's keys. -/
def validateChatResponse (keys : List String) : Bool :=
  chatRequiredFields.all (fun f => keys.contains f)

/-- A string is blank when it trims to the empty string, i.e. every
character is whitespace (the JavaScript `!s.trim()` test). -/
def isBlank (s : String) : Bool := s.data.all Char.isWhitespace

/-- From `frontend/src/pages/Chat.tsx` `handleSubmit`: the page sends the
message to the API only when the message does not trim to empty
(otherwise `handleSubmit` returns without any call). -/
def handleSubmitSends (message : String) : Bool := !isBlank message

/-- From `frontend/src/services/chat.ts` `setAuthToken`: with a token the
chat api instance's Authorization default header becomes `Bearer <token>`;
with null the header is deleted. -/
def chatSetAuthToken (token : Option String) : Option String :=
  match token with
  | some t => some ("Bearer " ++ t)
  | none => none

/-- From the profile service `setAuthToken` (same duplicated pattern as the
chat service): set `Bearer <token>` or delete the header. -/
def profileSetAuthToken (token : Option String) : Option String :=
  match token with
  | some t => some ("Bearer " ++ t)
  | none => none

/-- Value exports of `frontend/src/services/chat.ts`. -/
def chatServiceExports : List String :=
  ["setAuthToken", "sendMessage", "getRemainingQueries"]

/-- Value exports of `frontend/src/services/docs.ts`:
`listDocuments` and `getDocumentContent` only. -/
def docsServiceExports : List String := ["listDocuments", "getDocumentContent"]

/-- Value exports of the profile service module. -/
def profileServiceExports : List String :=
  ["setAuthToken", "getProfile", "updateProfile", "changePassword"]

/-- The imports `frontend/src/services/auth.ts` performs in order to
propagate the token (module, imported name). -/
def authSetAuthTokenImports : List (String × String) :=
  [("./chat", "setAuthToken"), ("./docs", "setAuthToken"),
   ("./profile", "setAuthToken")]

/-! ## Knowledge-base document-content endpoint (backend)

Modelled from the spec: the backend document endpoints
(`/api/v1/docs/list`, `/api/v1/docs/content/{path}`) are not in the source
snapshot.  Per the spec they are read-only and must reject path traversal:
requests resolving outside the knowledge-base root fail with a
not-found/forbidden condition, never with filesystem access outside the
root.  Paths are resolved by normalising slash-separated segments against
the knowledge-base root; a `..` with no parent segment escapes the root. -/

/-- Split a character list on the slash character; `acc` holds the current
segment reversed. -/
def splitSlashAux : List Char → List Char → List String
  | [], acc => [String.mk acc.reverse]
  | c :: cs, acc =>
      if c = '/' then String.mk acc.reverse :: splitSlashAux cs []
      else splitSlashAux cs (c :: acc)

/-- Split a document path on the slash character. -/
def splitSlash (p : String) : List String := splitSlashAux p.data []

/-- Normalise path segments against the root; `stack` holds the resolved
segments in reverse.  Empty and `.` segments are dropped, `..` pops a
segment, and a `..` at the root means the path escapes the root. -/
def normalizeAux : List String → List String → Option (List String)
  | [], stack => some stack.reverse
  | seg :: rest, stack =>
      if seg = "" ∨ seg = "." then normalizeAux rest stack
      else if seg = ".." then
        match stack with
        | [] => none
        | _ :: stack2 => normalizeAux rest stack2
      else normalizeAux rest (seg :: stack)

/-- Resolve a requested document path against the knowledge-base root:
`none` when the path resolves outside the root. -/
def resolveDocPath (p : String) : Option (List String) :=
  normalizeAux (splitSlash p) []

/-- The knowledge-base files: resolved segment paths mapped to content. -/
abbrev KnowledgeBase := List (List String × String)

/-- Error outcome of the document-content endpoint. -/
inductive DocsError where
  | notFound
  deriving Repr, DecidableEq

/-- Modelled from the spec: the document-content endpoint
(`/api/v1/docs/content/{path}`).  The requested path is resolved against
the knowledge-base root; a path resolving outside the root, or an unknown
path, yields a not-found condition, and content is only ever served from
the knowledge base under the root. -/
def getDocContent (kb : KnowledgeBase) (p : String) : Except DocsError String :=
  match resolveDocPath p with
  | none => .error .notFound
  | some segs =>
      match kb.lookup segs with
      | some content => .ok content
      | none => .error .notFound

/-! ## Chat orchestrator, history, retriever, composer (backend)

Modelled from the spec: the backend chat pipeline
(`RECEIVED → QUOTA_CHECKED → RETRIEVED → COMPOSED → PERSISTED → RESPONDED`)
is not in the source snapshot.  Retrieval always succeeds (an unreachable
vector index yields an empty passage list, degraded mode); composition
with an empty passage list is the context-free path; a composition that
fails after its bounded retries is a terminal service-unavailable outcome
and the exchange is not persisted; on success one ChatExchange is appended
to the user's history and `{answerText, remainingQueries, limit}` is
returned. -/

/-- A retrieved passage with its similarity score. -/
structure Passage where
  text : String
  score : Nat
  deriving Repr, DecidableEq

/-- Outcome of the vector-index search: passages, or index unreachable. -/
inductive RetrievalOutcome where
  | ok (passages : List Passage)
  | unreachable
  deriving Repr, DecidableEq

/-- Modelled from the spec: the Retriever returns the top-k passages and,
when the vector index is unreachable or times out, an empty list (degraded
mode) rather than an error. -/
def retrievePassages : RetrievalOutcome → List Passage
  | .ok ps => ps
  | .unreachable => []

/-- A persisted chat exchange (immutable once written). -/
structure ChatExchange where
  query : String
  response : String
  timestamp : Nat
  deriving Repr, DecidableEq

/-- Error taxonomy of the chat endpoint. -/
inductive ChatError where
  | invalidInput
  | rateLimitExceeded
  | serviceUnavailable
  deriving Repr, DecidableEq

/-- Successful chat payload: answer text, remaining queries, daily limit,
and whether the answer was composed context-free (degraded mode). -/
structure ChatOk where
  response : String
  remaining : Nat
  limit : Nat
  contextFree : Bool
  deriving Repr, DecidableEq

/-- Kinds of external provider calls made by the pipeline. -/
inductive ExtCall where
  | embedding
  | vectorSearch
  | completion
  deriving Repr, DecidableEq

/-- Per-user server state touched by a chat request. -/
structure ChatState where
  quota : QuotaRecord
  history : List ChatExchange
  deriving Repr, DecidableEq

/-- External calls of a request that passes quota: embedding, vector
search, then one completion call. -/
def chatCalls : List ExtCall := [.embedding, .vectorSearch, .completion]

/-- Modelled from the spec: the Chat Orchestrator.  An empty (blank) query
is rejected as invalid input before any external call; a failed quota
check is a terminal rate-limit error; retrieval always succeeds (degraded
mode gives an empty passage list and routes composition context-free);
`compOut = none` models the completion provider failing after its bounded
retries (terminal service-unavailable, nothing persisted); on success the
exchange is appended to the history and the answer returned with the
remaining-query information. -/
def chatOrchestrate (limit now : Nat) (query : String)
    (retrOut : RetrievalOutcome) (compOut : Option String) (st : ChatState) :
    Except ChatError ChatOk × ChatState × List ExtCall :=
  if isBlank query then (.error .invalidInput, st, [])
  else
    let q := checkAndConsume limit now st.quota
    if q.1.allowed then
      match compOut with
      | none => (.error .serviceUnavailable, ⟨q.2, st.history⟩, chatCalls)
      | some ans =>
          (.ok ⟨ans, q.1.remaining, limit, (retrievePassages retrOut).isEmpty⟩,
           ⟨q.2, st.history ++ [⟨query, ans, now⟩]⟩, chatCalls)
    else (.error .rateLimitExceeded, ⟨q.2, st.history⟩, [])

/-- Modelled from the spec: the chat-history endpoint
(`/api/v1/chat/history`) returns the user's exchanges most recent first;
the stored history is append-only in chronological order, so the served
list is its reverse. -/
def getChatHistorySrv (history : List ChatExchange) : List ChatExchange :=
  history.reverse

/-! ## Document ingest (backend)

Modelled from the spec: `ingest(documentPath, rawText, metadata) ->
chunkCount` is not in the source snapshot.  Per the spec it splits
`rawText` into overlapping chunks of a configured target size advancing by
a configured step (size minus overlap), preserving chunk order, and
upserts the chunks into the vector index tagged with the document path,
superseding (delete-then-insert) prior chunks of the same path. -/

/-- An indexed chunk of a source document. -/
structure DocumentChunk where
  docPath : String
  text : String
  idx : Nat
  deriving Repr, DecidableEq

/-- Chunking worker: emit the next `size` characters and advance by
`step`; the fuel bounds the recursion by the text length. -/
def chunkAux (size step : Nat) : Nat → List Char → List String
  | 0, _ => []
  | _, [] => []
  | fuel + 1, c :: cs =>
      String.mk ((c :: cs).take size) :: chunkAux size step fuel ((c :: cs).drop step)

/-- Split raw text into overlapping chunks of target `size` advancing by
`step` characters, preserving order. -/
def chunkText (size step : Nat) (raw : String) : List String :=
  chunkAux size step raw.data.length raw.data

/-- The vector index content: a list of document chunks. -/
abbrev VectorStore := List DocumentChunk

/-- Modelled from the spec: Document Ingest.  Chunk the raw text, drop the
store's existing chunks for the document path (supersede), and insert the
fresh chunks tagged with the path and their order; the chunk count is
returned. -/
def ingest (size step : Nat) (path raw : String) (store : VectorStore) :
    Nat × VectorStore :=
  let texts := chunkText size step raw
  let fresh := texts.enum.map (fun p => DocumentChunk.mk path p.2 p.1)
  let kept := store.filter (fun c => !(c.docPath == path))
  (texts.length, kept ++ fresh)

/-! ## Helper lemmas -/

theorem checkAndConsume_allowed (L now : Nat) (rec : QuotaRecord)
    (h : (checkAndConsume L now rec).1.allowed = true) :
    (checkAndConsume L now rec).2.count = (resetIfExpired now rec).count + 1
      ∧ (checkAndConsume L now rec).1.remaining
          = L - (checkAndConsume L now rec).2.count := by
  by_cases hc : L ≤ (resetIfExpired now rec).count
  · simp [checkAndConsume, hc] at h
  · simp [checkAndConsume, hc]

/-! ## Claim theorems -/

/-- C1: for every user with daily limit `L`, after `N ≤ L` consecutive
successful chat requests within one quota window starting from a fresh
record, each `i`-th request is allowed and reports `L - i` remaining (so
after `N` requests the reported remaining equals `L - N`); and when
`N = L`, the next quota check is refused without incrementing the count
and the next chat request is rejected with the rate-limit error. -/
theorem quota_consumption_and_limit (L N now : Nat) (hN : N ≤ L) :
    (consumeN L now ⟨0, now⟩ N).count = N
    ∧ (∀ i : Nat, i < N →
        (checkAndConsume L now (consumeN L now ⟨0, now⟩ i)).1.allowed = true
        ∧ (checkAndConsume L now (consumeN L now ⟨0, now⟩ i)).1.remaining
            = L - (i + 1))
    ∧ (N = L →
        (checkAndConsume L now (consumeN L now ⟨0, now⟩ N)).1.allowed = false
        ∧ (checkAndConsume L now (consumeN L now ⟨0, now⟩ N)).2.count = N
        ∧ ∀ (query : String) (retrOut : RetrievalOutcome)
            (compOut : Option String) (hist : List ChatExchange),
            isBlank query = false →
            (chatOrchestrate L now query retrOut compOut
                ⟨consumeN L now ⟨0, now⟩ N, hist⟩).1
              = .error .rateLimitExceeded) := by
  refine ⟨by rw [consumeN_le L now N hN], fun i hi => ?_, fun hNL => ?_⟩
  · have hiL : i < L := Nat.lt_of_lt_of_le hi hN
    rw [consumeN_le L now i (Nat.le_of_lt hiL)]
    simp [checkAndConsume, resetIfExpired, insideWindow_self,
      Nat.not_le.mpr hiL]
  · rw [hNL]
    rw [consumeN_le L now L le_rfl]
    refine ⟨?_, ?_, ?_⟩
    · simp [checkAndConsume, resetIfExpired, insideWindow_self]
    · simp [checkAndConsume, resetIfExpired, insideWindow_self]
    · intro query retrOut compOut hist hq
      simp [chatOrchestrate, hq, checkAndConsume, resetIfExpired,
        insideWindow_self]

/-- Witness for C1 at `L = 3`, `N = 3`, `now = 0`. -/
theorem quota_consumption_and_limit_witness :
    (consumeN 3 0 ⟨0, 0⟩ 3).count = 3
    ∧ (∀ i : Nat, i < 3 →
        (checkAndConsume 3 0 (consumeN 3 0 ⟨0, 0⟩ i)).1.allowed = true
        ∧ (checkAndConsume 3 0 (consumeN 3 0 ⟨0, 0⟩ i)).1.remaining
            = 3 - (i + 1))
    ∧ (3 = 3 →
        (checkAndConsume 3 0 (consumeN 3 0 ⟨0, 0⟩ 3)).1.allowed = false
        ∧ (checkAndConsume 3 0 (consumeN 3 0 ⟨0, 0⟩ 3)).2.count = 3
        ∧ ∀ (query : String) (retrOut : RetrievalOutcome)
            (compOut : Option String) (hist : List ChatExchange),
            isBlank query = false →
            (chatOrchestrate 3 0 query retrOut compOut
                ⟨consumeN 3 0 ⟨0, 0⟩ 3, hist⟩).1
              = .error .rateLimitExceeded) :=
  quota_consumption_and_limit 3 3 0 (by decide)

/-- C3: whenever a quota check runs at a time outside the user's record's
window, the record is reset to count 0 with window-start now, the
available quota returns to the full limit regardless of prior exhaustion,
and (for a positive limit) the check succeeds reporting `limit - 1`
remaining. -/
theorem quota_resets_after_window (L now : Nat) (rec : QuotaRecord)
    (h : insideWindow rec.windowStart now = false) :
    resetIfExpired now rec = ⟨0, now⟩
    ∧ L - (resetIfExpired now rec).count = L
    ∧ (0 < L →
        (checkAndConsume L now rec).1.allowed = true
        ∧ (checkAndConsume L now rec).1.remaining = L - 1
        ∧ (checkAndConsume L now rec).2 = ⟨1, now⟩) := by
  have hr : resetIfExpired now rec = ⟨0, now⟩ := by
    simp [resetIfExpired, h]
  refine ⟨hr, by simp [hr], fun hL => ?_⟩
  simp [checkAndConsume, hr, Nat.not_le.mpr hL]

/-- Witness for C3: an exhausted record (count 10) whose window started at
time 0, checked at time 200000 (past the 86400 s window). -/
theorem quota_resets_after_window_witness :
    resetIfExpired 200000 ⟨10, 0⟩ = ⟨0, 200000⟩
    ∧ 10 - (resetIfExpired 200000 (⟨10, 0⟩ : QuotaRecord)).count = 10
    ∧ (0 < 10 →
        (checkAndConsume 10 200000 ⟨10, 0⟩).1.allowed = true
        ∧ (checkAndConsume 10 200000 ⟨10, 0⟩).1.remaining = 10 - 1
        ∧ (checkAndConsume 10 200000 ⟨10, 0⟩).2 = ⟨1, 200000⟩) :=
  quota_resets_after_window 10 200000 ⟨10, 0⟩ (by decide)

/-- C5: whenever the retriever returns zero passages (in particular when
the vector index is unreachable) and the query passes validation and
quota, the chat still completes successfully with a context-free answer,
and the remaining queries are decremented exactly as on any successful
chat (count up by one, remaining = limit - count). -/
theorem degraded_retrieval_succeeds (L now : Nat) (query ans : String)
    (retrOut : RetrievalOutcome) (st : ChatState)
    (hq : isBlank query = false)
    (hp : retrievePassages retrOut = [])
    (ha : (checkAndConsume L now st.quota).1.allowed = true) :
    chatOrchestrate L now query retrOut (some ans) st
      = (.ok ⟨ans, (checkAndConsume L now st.quota).1.remaining, L, true⟩,
         ⟨(checkAndConsume L now st.quota).2,
          st.history ++ [⟨query, ans, now⟩]⟩, chatCalls)
    ∧ (checkAndConsume L now st.quota).2.count
        = (resetIfExpired now st.quota).count + 1
    ∧ (checkAndConsume L now st.quota).1.remaining
        = L - (checkAndConsume L now st.quota).2.count := by
  refine ⟨?_, checkAndConsume_allowed L now st.quota ha⟩
  simp [chatOrchestrate, hq, ha, hp]

/-- Witness for C5: fresh user, limit 10, vector index unreachable. -/
theorem degraded_retrieval_succeeds_witness :
    chatOrchestrate 10 0 "What is Six Sigma?" .unreachable
        (some "Six Sigma is a methodology.") ⟨⟨0, 0⟩, []⟩
      = (.ok ⟨"Six Sigma is a methodology.", 9, 10, true⟩,
         ⟨⟨1, 0⟩, [⟨"What is Six Sigma?", "Six Sigma is a methodology.", 0⟩]⟩,
         chatCalls)
    ∧ (checkAndConsume 10 0 (⟨0, 0⟩ : QuotaRecord)).2.count
        = (resetIfExpired 0 (⟨0, 0⟩ : QuotaRecord)).count + 1
    ∧ (checkAndConsume 10 0 (⟨0, 0⟩ : QuotaRecord)).1.remaining
        = 10 - (checkAndConsume 10 0 (⟨0, 0⟩ : QuotaRecord)).2.count := by
  exact degraded_retrieval_succeeds 10 0 "What is Six Sigma?"
    "Six Sigma is a methodology." .unreachable ⟨⟨0, 0⟩, []⟩
    (by decide) rfl (by decide)

/-- C6: a chat request with an empty query is rejected with the
invalid-input error, the server state is untouched, and no external call
(embedding, retrieval, or completion) is made; likewise the frontend chat
page does not even send a blank message. -/
theorem empty_query_rejected (L now : Nat) (retrOut : RetrievalOutcome)
    (compOut : Option String) (st : ChatState) :
    chatOrchestrate L now "" retrOut compOut st = (.error .invalidInput, st, [])
    ∧ handleSubmitSends "" = false := by
  have hb : isBlank "" = true := by decide
  exact ⟨by simp [chatOrchestrate, hb], by decide⟩

/-- C7: when composition fails after exhausting its retries, the chat
request terminates with the service-unavailable error and no exchange is
persisted: the stored chat history is exactly the history from before the
request. -/
theorem compose_failure_terminal (L now : Nat) (query : String)
    (retrOut : RetrievalOutcome) (st : ChatState)
    (hq : isBlank query = false)
    (ha : (checkAndConsume L now st.quota).1.allowed = true) :
    chatOrchestrate L now query retrOut none st
      = (.error .serviceUnavailable,
         ⟨(checkAndConsume L now st.quota).2, st.history⟩, chatCalls)
    ∧ (chatOrchestrate L now query retrOut none st).2.1.history
        = st.history := by
  have h1 : chatOrchestrate L now query retrOut none st
      = (.error .serviceUnavailable,
         ⟨(checkAndConsume L now st.quota).2, st.history⟩, chatCalls) := by
    simp [chatOrchestrate, hq, ha]
  exact ⟨h1, by rw [h1]⟩

/-- Witness for C7: user with one prior exchange, composition fails. -/
theorem compose_failure_terminal_witness :
    chatOrchestrate 10 7 "What is DMAIC?" (.ok []) none
        ⟨⟨1, 0⟩, [⟨"hello", "hi", 3⟩]⟩
      = (.error .serviceUnavailable, ⟨⟨2, 0⟩, [⟨"hello", "hi", 3⟩]⟩, chatCalls)
    ∧ (chatOrchestrate 10 7 "What is DMAIC?" (.ok []) none
        ⟨⟨1, 0⟩, [⟨"hello", "hi", 3⟩]⟩).2.1.history
        = [⟨"hello", "hi", 3⟩] := by
  exact compose_failure_terminal 10 7 "What is DMAIC?" (.ok [])
    ⟨⟨1, 0⟩, [⟨"hello", "hi", 3⟩]⟩ (by decide) (by decide)

/-- C9: a successful chat appends exactly one exchange to the user's
history, leaving every existing entry in place (the old history is a
prefix of the new one), and the history endpoint serves the exchanges in
reverse chronological order: the new exchange first, and, whenever the
stored history was chronologically sorted with timestamps not after now,
the served list is sorted by descending timestamp. -/
theorem history_append_only (L now : Nat) (query ans : String)
    (retrOut : RetrievalOutcome) (st : ChatState)
    (hq : isBlank query = false)
    (ha : (checkAndConsume L now st.quota).1.allowed = true) :
    (chatOrchestrate L now query retrOut (some ans) st).2.1.history
        = st.history ++ [⟨query, ans, now⟩]
    ∧ (chatOrchestrate L now query retrOut (some ans) st).2.1.history.take
          st.history.length = st.history
    ∧ getChatHistorySrv (st.history ++ [⟨query, ans, now⟩])
        = ChatExchange.mk query ans now :: getChatHistorySrv st.history
    ∧ ((∀ e ∈ st.history, e.timestamp ≤ now) →
        List.Sorted (fun a b => a.timestamp ≤ b.timestamp) st.history →
        List.Sorted (fun a b => b.timestamp ≤ a.timestamp)
          (getChatHistorySrv
            ((chatOrchestrate L now query retrOut (some ans) st).2.1.history))) := by
  have hhist : (chatOrchestrate L now query retrOut (some ans) st).2.1.history
      = st.history ++ [⟨query, ans, now⟩] := by
    simp [chatOrchestrate, hq, ha]
  refine ⟨hhist, by rw [hhist]; exact List.take_left _ _, ?_, ?_⟩
  · simp [getChatHistorySrv]
  · intro hle hsorted
    rw [hhist]
    simp only [getChatHistorySrv, List.reverse_append, List.reverse_singleton,
      List.singleton_append]
    refine List.sorted_cons.mpr ⟨?_, ?_⟩
    · intro b hb
      exact hle b (List.mem_reverse.mp hb)
    · exact (List.pairwise_reverse).mpr hsorted

/-- Witness for C9: one prior exchange at time 3, new chat at time 7. -/
theorem history_append_only_witness :
    (chatOrchestrate 10 7 "Define DMAIC" (.ok []) (some "DMAIC stands for ...")
        ⟨⟨1, 0⟩, [⟨"hello", "hi", 3⟩]⟩).2.1.history
        = [⟨"hello", "hi", 3⟩] ++ [⟨"Define DMAIC", "DMAIC stands for ...", 7⟩]
    ∧ (chatOrchestrate 10 7 "Define DMAIC" (.ok []) (some "DMAIC stands for ...")
        ⟨⟨1, 0⟩, [⟨"hello", "hi", 3⟩]⟩).2.1.history.take
          ([(⟨"hello", "hi", 3⟩ : ChatExchange)]).length = [⟨"hello", "hi", 3⟩]
    ∧ getChatHistorySrv ([⟨"hello", "hi", 3⟩] ++ [⟨"Define DMAIC", "DMAIC stands for ...", 7⟩])
        = ChatExchange.mk "Define DMAIC" "DMAIC stands for ..." 7
            :: getChatHistorySrv [⟨"hello", "hi", 3⟩]
    ∧ ((∀ e ∈ ([⟨"hello", "hi", 3⟩] : List ChatExchange), e.timestamp ≤ 7) →
        List.Sorted (fun a b => a.timestamp ≤ b.timestamp)
          ([⟨"hello", "hi", 3⟩] : List ChatExchange) →
        List.Sorted (fun a b => b.timestamp ≤ a.timestamp)
          (getChatHistorySrv
            ((chatOrchestrate 10 7 "Define DMAIC" (.ok [])
                (some "DMAIC stands for ...")
                ⟨⟨1, 0⟩, [⟨"hello", "hi", 3⟩]⟩).2.1.history))) := by
  exact history_append_only 10 7 "Define DMAIC" "DMAIC stands for ..." (.ok [])
    ⟨⟨1, 0⟩, [⟨"hello", "hi", 3⟩]⟩ (by decide) (by decide)

/-- C4: a document-content request whose path resolves outside the
knowledge-base root (for example by `..` traversal segments) fails with
the not-found condition for every knowledge base, and file content is
never returned for it. -/
theorem traversal_rejected (kb : KnowledgeBase) (p : String)
    (h : resolveDocPath p = none) :
    getDocContent kb p = .error .notFound
    ∧ ∀ c : String, getDocContent kb p ≠ .ok c := by
  have h1 : getDocContent kb p = .error .notFound := by
    simp [getDocContent, h]
  refine ⟨h1, fun c hc => ?_⟩
  rw [h1] at hc
  cases hc

/-- Witness for C4: the malformed path from the repository's docs test,
against a knowledge base holding one document. -/
theorem traversal_rejected_witness :
    getDocContent [(["methodologies", "dmaic.md"], "DMAIC overview")]
        "../../../etc/passwd" = .error .notFound
    ∧ ∀ c : String,
        getDocContent [(["methodologies", "dmaic.md"], "DMAIC overview")]
          "../../../etc/passwd" ≠ .ok c :=
  traversal_rejected [(["methodologies", "dmaic.md"], "DMAIC overview")]
    "../../../etc/passwd" (by decide)

/-- C8: ingest is idempotent at document-path granularity: re-running
ingest on the same path with unchanged raw text returns the same chunk
count and leaves the vector store exactly as after the first run (hence
the same set of chunk texts and no duplicated chunks); moreover after an
ingest the store holds exactly `chunkCount` chunks for that path. -/
theorem ingest_idempotent (size step : Nat) (path raw : String)
    (store : VectorStore) :
    ingest size step path raw (ingest size step path raw store).2
      = ingest size step path raw store
    ∧ ((ingest size step path raw store).2.filter
          (fun c => c.docPath == path)).length
        = (ingest size step path raw store).1 := by
  have hkeep : ∀ c ∈ store.filter (fun c => !(c.docPath == path)),
      (!(c.docPath == path)) = true := fun c hc => (List.mem_filter.mp hc).2
  have hfresh : ∀ c ∈ (chunkText size step raw).enum.map
      (fun p => DocumentChunk.mk path p.2 p.1), c.docPath = path := by
    intro c hc
    obtain ⟨p, _, rfl⟩ := List.mem_map.mp hc
    rfl
  have h1 : (store.filter (fun c => !(c.docPath == path))).filter
        (fun c => !(c.docPath == path))
      = store.filter (fun c => !(c.docPath == path)) :=
    List.filter_eq_self.mpr hkeep
  have h2 : ((chunkText size step raw).enum.map
        (fun p => DocumentChunk.mk path p.2 p.1)).filter
        (fun c => !(c.docPath == path)) = [] := by
    refine List.filter_eq_nil_iff.mpr (fun c hc => ?_)
    simp [hfresh c hc]
  have h3 : ((chunkText size step raw).enum.map
        (fun p => DocumentChunk.mk path p.2 p.1)).filter
        (fun c => c.docPath == path)
      = (chunkText size step raw).enum.map
          (fun p => DocumentChunk.mk path p.2 p.1) := by
    refine List.filter_eq_self.mpr (fun c hc => ?_)
    simp [hfresh c hc]
  have h4 : (store.filter (fun c => !(c.docPath == path))).filter
        (fun c => c.docPath == path) = [] := by
    refine List.filter_eq_nil_iff.mpr (fun c hc => ?_)
    have hc2 := hkeep c hc
    simp only [Bool.not_eq_true'] at hc2
    simp [hc2]
  constructor
  · simp only [ingest, List.filter_append, h1, h2, List.append_nil]
  · simp only [ingest, List.filter_append, h3, h4, List.nil_append,
      List.length_map, List.enum_length]

/-- C2 counterexample: the successful chat response object of the source
(`ChatResponse` in `frontend/src/services/chat.ts`) has no top-level
`limit` field — the daily limit is only nested inside
`remaining_queries`. -/
theorem chatResponse_limit_key_absent :
    chatResponseKeys.contains "limit" = false := by decide

/-- C2 (amended): a successful chat response contains the fields
`response` and `remaining_queries` — satisfying the repository's own
`validateChatResponse` — and the applicable daily limit is carried inside
`remaining_queries` as `daily_queries_limit`, not as a top-level `limit`
field. -/
theorem chatResponse_shape :
    validateChatResponse chatResponseKeys = true
    ∧ chatResponseKeys.contains "response" = true
    ∧ chatResponseKeys.contains "remaining_queries" = true
    ∧ remainingQueriesKeys.contains "daily_queries_limit" = true
    ∧ chatResponseKeys.contains "limit" = false := by decide

/-- C10: after `setAuthToken(t)` the chat and profile clients attach
`Authorization: Bearer t` (and detach it on null), and `auth.ts` imports a
`setAuthToken` from the docs module — but the docs service module exports
no `setAuthToken` at all, so the docs client is never given the header and
the import `auth.ts` performs does not resolve. -/
theorem docs_setAuthToken_missing (t : String) :
    chatSetAuthToken (some t) = some ("Bearer " ++ t)
    ∧ profileSetAuthToken (some t) = some ("Bearer " ++ t)
    ∧ chatSetAuthToken none = none
    ∧ profileSetAuthToken none = none
    ∧ chatServiceExports.contains "setAuthToken" = true
    ∧ profileServiceExports.contains "setAuthToken" = true
    ∧ authSetAuthTokenImports.contains ("./docs", "setAuthToken") = true
    ∧ docsServiceExports.contains "setAuthToken" = false := by
  exact ⟨rfl, rfl, rfl, rfl, by decide, by decide, by decide, by decide⟩

end L6S
